import Mathlib

/-!
Verification of `velodyne-post-ros` (`src/velodyne_post/lib/VelodynePostNode.cpp`).

The node ingests Velodyne LIDAR packets (raw `DataPacketMsg` or snappy-compressed
`BinarySnappyMsg`), accumulates them into a batch of `_numDataPackets` packets,
converts a full batch into a point cloud and publishes it, demand-gated on the
subscriber count.  A periodic timer activates or deactivates the upstream
subscription depending on the subscriber count.

This file shallowly embeds the node.  External collaborators (snappy
decompression, libvelodyne binary deserialization, the geometric converter)
are parameters of the embedding (`Ext`); machine integers are modelled as
`Nat`/`Int` with the `size_t` cast made explicit; fallible external calls
return `Except`; the C++ exception that can escape a callback is modelled by
the `CbResult.thrown` constructor, and reading `front()`/`back()` of an empty
vector by `CbResult.undef`.
-/

namespace Velodyne

/-- One laser measurement (libvelodyne `DataPacket::LaserData`):
`mDistance` and `mIntensity`.  Scalars are modelled as exact rationals. -/
structure LaserData where
  mDistance : ℚ
  mIntensity : ℚ
  deriving Repr, DecidableEq, Inhabited

/-- One data chunk (libvelodyne `DataPacket::DataChunk`): header info,
rotational info and the laser returns of the chunk. -/
structure DataChunk where
  mHeaderInfo : Nat
  mRotationalInfo : Nat
  mLaserData : List LaserData
  deriving Repr, DecidableEq, Inhabited

/-- One decoded packet (libvelodyne `DataPacket`): the ordered data chunks,
the capture timestamp in nanoseconds (`header.stamp.toNSec()` is a `uint64_t`),
the spin count and the reserved pass-through field. -/
structure DataPacket where
  mDataChunks : List DataChunk
  mTimestamp : Nat
  mSpinCount : Nat
  mReserved : Nat
  deriving Repr, DecidableEq, Inhabited

/-- A ROS message header: capture stamp (nanoseconds) and frame identifier. -/
structure Header where
  stamp : Nat
  frame_id : String
  deriving Repr, DecidableEq, Inhabited

/-- The raw structured message (`velodyne::DataPacketMsg`): already shaped
like a `DataPacket`. -/
structure DataPacketMsg where
  header : Header
  dataChunks : List DataChunk
  spinCount : Nat
  reserved : Nat
  deriving Repr, DecidableEq, Inhabited

/-- The compressed message (`velodyne::BinarySnappyMsg`): a header plus an
opaque snappy-compressed byte buffer. -/
structure BinarySnappyMsg where
  header : Header
  data : List Nat
  deriving Repr, DecidableEq, Inhabited

/-- The per-device calibration model (libvelodyne `Calibration`), opaque to
this node: an abstract correction table.  `Calibration()` default-constructs
the empty table. -/
structure Calibration where
  table : List ℚ
  deriving Repr, DecidableEq, Inhabited

/-- The default-constructed calibration model (`std::make_shared<Calibration>()`,
line 52). -/
def defaultCalibration : Calibration := ⟨[]⟩

/-- An output point (libvelodyne `VdynePointCloud` element): Cartesian
coordinates plus intensity. -/
structure Point where
  mX : ℚ
  mY : ℚ
  mZ : ℚ
  mIntensity : ℚ
  deriving Repr, DecidableEq, Inhabited

/-- External collaborators consumed through narrow interfaces:
* `snappyUncompress` — `snappy::Uncompress`; returns the success flag and the
  contents of the output buffer (on failure the buffer contents are
  unspecified, so the model keeps them arbitrary);
* `readBinary` — libvelodyne `DataPacket::readBinary` on an `istringstream`;
  an `IOException` escaping it is the `.error` case;
* `convertSingleReturn` — the opaque calibration-aware geometric mapping used
  by libvelodyne `Converter::toPointCloud` for one in-range laser return. -/
structure Ext where
  snappyUncompress : List Nat → Bool × List Nat
  readBinary : List Nat → Except String DataPacket
  convertSingleReturn : Calibration → DataChunk → LaserData → Point

/-- Model of `ros::TransportHints().unreliable().reliable()` vs
`ros::TransportHints().reliable().unreliable()` (lines 59-62). -/
inductive TransportHints where
  | unreliableThenReliable
  | reliableThenUnreliable
  deriving Repr, DecidableEq, Inhabited

/-- The mutable node state: `_frameId`, the accumulator `_dataPackets`, and
the configuration members read by the pipeline.  `transportHints = none`
models `_transportHints` left at its default-constructed value (no resolution
happened). -/
structure NodeState where
  frameId : String
  dataPackets : List DataPacket
  numDataPackets : Int
  minDistance : ℚ
  maxDistance : ℚ
  useBinarySnappy : Bool
  subscriptionIsActive : Bool
  calibration : Calibration
  transportHints : Option TransportHints
  deriving Repr, DecidableEq, Inhabited

/-- Model of `static_cast<size_t>(_numDataPackets)` (lines 97 and 115): conversion of a
C++ `int` to the 64-bit unsigned `size_t`, i.e. reduction modulo `2 ^ 64`. -/
def castToSizeT (i : Int) : Nat := (i % (2 ^ 64 : Int)).toNat

/-- Model of `std::round (d * 0.5)` for an integer difference `d`: rounding half away
from zero.  Both branches divide non-negative integers, so the result does not
depend on the integer-division convention. -/
def roundHalf (d : Int) : Int :=
  if 0 ≤ d then (d + 1) / 2 else -((-d + 1) / 2)

/-- The outbound stamp (lines 129-132):
`front().getTimestamp() + round((back().getTimestamp() - front().getTimestamp()) * 0.5)`. -/
def midTimestamp (first last : Nat) : Int :=
  (first : Int) + roundHalf ((last : Int) - (first : Int))

/-- Whether a raw return passes the distance thresholds:
`minDistance <= rawDistance <= maxDistance`. -/
def inRange (minD maxD : ℚ) (ld : LaserData) : Bool :=
  decide (minD ≤ ld.mDistance) && decide (ld.mDistance ≤ maxD)

/-- Modelled from the spec: libvelodyne `Converter::toPointCloud` is an
external collaborator whose source is not part of this repository.  Per §4.3
of the spec, every RawLaserReturn of every DataChunk of the packet, in order,
is mapped through the calibration model, and a candidate point is included in
the output iff `minDistance <= rawDistance <= maxDistance`. -/
def toPointCloud (ext : Ext) (calib : Calibration) (p : DataPacket)
    (minD maxD : ℚ) : List Point :=
  p.mDataChunks.flatMap fun c =>
    c.mLaserData.flatMap fun ld =>
      if inRange minD maxD ld then [ext.convertSingleReturn calib c ld] else []

/-- All raw returns of a packet paired with their chunk, in chunk order then
laser order (specification-side view of the iteration order of
`toPointCloud`). -/
def packetReturns (p : DataPacket) : List (DataChunk × LaserData) :=
  p.mDataChunks.flatMap fun c => c.mLaserData.map fun ld => (c, ld)

/-- All raw returns of a batch, in packet order then chunk order then laser
order. -/
def batchReturns (batch : List DataPacket) : List (DataChunk × LaserData) :=
  batch.flatMap packetReturns

/-- The cloud accumulated over the whole batch (lines 124-127): the conversion
of every packet of `_dataPackets`, in order, against `*_calibration`,
`_minDistance` and `_maxDistance`. -/
def conversionCloud (ext : Ext) (s : NodeState) : List Point :=
  s.dataPackets.flatMap fun p =>
    toPointCloud ext s.calibration p s.minDistance s.maxDistance

/-- The outbound `sensor_msgs::PointCloud` as assembled by `publish`
(lines 128-147): midpoint stamp, current `_frameId`, the geometry of the
converted cloud, and the index-aligned channel named `"intensity"`. -/
structure PointCloudMsg where
  stamp : Int
  frame_id : String
  points : List (ℚ × ℚ × ℚ)
  channelName : String
  intensities : List ℚ
  deriving Repr, DecidableEq, Inhabited

/-- The message built by `publish` from state `s` once the batch endpoints
`first`/`last` (timestamps of `_dataPackets.front()` and `.back()`) are
known. -/
def mkPointCloudMsg (ext : Ext) (s : NodeState) (first last : Nat) :
    PointCloudMsg :=
  let cloud := conversionCloud ext s
  { stamp := midTimestamp first last
    frame_id := s.frameId
    points := cloud.map fun pt => (pt.mX, pt.mY, pt.mZ)
    channelName := "intensity"
    intensities := cloud.map Point.mIntensity }

/-- Model of `VelodynePostNode::publish` (lines 121-151).  Returns the emitted messages;
`none` models the undefined behaviour of reading `front()`/`back()` of an
empty `_dataPackets` (only reachable past the early demand check).  With zero
subscribers the function returns before any conversion work (line 122-123). -/
def publish (ext : Ext) (numSubscribers : Nat) (s : NodeState) :
    Option (List PointCloudMsg) :=
  if numSubscribers = 0 then some []
  else
    match s.dataPackets.head?, s.dataPackets.getLast? with
    | some pf, some pl => some [mkPointCloudMsg ext s pf.mTimestamp pl.mTimestamp]
    | _, _ => none

/-- Outcome of one decode-callback dispatch:
* `.ok s' pb out` — the callback returned normally with new state `s'`,
  `pb = some b` iff `publish()` was invoked, with `b` the value of
  `_dataPackets` at that invocation, and `out` the emitted messages;
* `.thrown e s'` — an exception escaped the callback (no try/catch in the
  source), `s'` being the member state at the throw point;
* `.undef` — undefined behaviour was reached inside `publish`. -/
inductive CbResult where
  | ok (s : NodeState) (publishedBatch : Option (List DataPacket))
      (out : List PointCloudMsg)
  | thrown (e : String) (s : NodeState)
  | undef
  deriving Repr, DecidableEq, Inhabited

/-- The state recorded in a callback outcome, when the callback did not reach
undefined behaviour. -/
def CbResult.stateOf : CbResult → Option NodeState
  | .ok s _ _ => some s
  | .thrown _ s => some s
  | .undef => none

/-- The field-by-field copy of a raw message into a canonical `DataPacket`
(lines 80-95): chunks with header/rotational info and per-laser
distance/intensity, timestamp from `header.stamp.toNSec()`, spin count and
reserved bytes from the message. -/
def decodeRawPacket (msg : DataPacketMsg) : DataPacket :=
  { mDataChunks := msg.dataChunks
    mTimestamp := msg.header.stamp
    mSpinCount := msg.spinCount
    mReserved := msg.reserved }

/-- The tail shared verbatim by both callbacks (lines 96-100 and 114-118):
`_dataPackets.push_back(dataPacket)`; if the new size equals
`static_cast<size_t>(_numDataPackets)`, call `publish()` and then clear the
batch. -/
def appendAndMaybePublish (ext : Ext) (numSubscribers : Nat) (s : NodeState)
    (dp : DataPacket) : CbResult :=
  let s' := { s with dataPackets := s.dataPackets ++ [dp] }
  if s'.dataPackets.length = castToSizeT s'.numDataPackets then
    match publish ext numSubscribers s' with
    | some out => .ok { s' with dataPackets := [] } (some s'.dataPackets) out
    | none => .undef
  else
    .ok s' none []

/-- Model of `VelodynePostNode::velodyneDataPacketCallback` (lines 77-101):
`_frameId = msg->header.frame_id`, field-by-field decode, then append /
size check / publish / clear. -/
def velodyneDataPacketCallback (ext : Ext) (numSubscribers : Nat)
    (s : NodeState) (msg : DataPacketMsg) : CbResult :=
  let s := { s with frameId := msg.header.frame_id }
  appendAndMaybePublish ext numSubscribers s (decodeRawPacket msg)

/-- Model of `VelodynePostNode::velodyneBinarySnappyCallback` (lines 103-119):
`snappy::Uncompress` is called with its boolean success flag discarded
(line 106-108 — only the output buffer `.2` is used), `_frameId` is assigned,
the decompressed buffer is deserialized by `readBinary` (an escaping
`IOException` is not caught), the packet timestamp is overwritten with the
message stamp, then the shared append / size check / publish / clear tail
runs. -/
def velodyneBinarySnappyCallback (ext : Ext) (numSubscribers : Nat)
    (s : NodeState) (msg : BinarySnappyMsg) : CbResult :=
  let uncompressedData := (ext.snappyUncompress msg.data).2
  let s := { s with frameId := msg.header.frame_id }
  match ext.readBinary uncompressedData with
  | .error e => .thrown e s
  | .ok dp =>
      appendAndMaybePublish ext numSubscribers s
        { dp with mTimestamp := msg.header.stamp }

/-- Dispatch of a sequence of raw messages to `velodyneDataPacketCallback`,
one at a time (the single-threaded callback scheduling of §5).  Collects the
batches passed to `publish()` and the emitted messages; `none` if any dispatch
threw or reached undefined behaviour. -/
def runRaw (ext : Ext) (numSubscribers : Nat) :
    NodeState → List DataPacketMsg →
    Option (NodeState × List (List DataPacket) × List PointCloudMsg)
  | s, [] => some (s, [], [])
  | s, msg :: msgs =>
    match velodyneDataPacketCallback ext numSubscribers s msg with
    | .ok s' pb out =>
      match runRaw ext numSubscribers s' msgs with
      | some (sf, pbs, outs) => some (sf, pb.toList ++ pbs, out ++ outs)
      | none => none
    | _ => none

/-- The two decoder input channels (the two topics a subscription can be
established on). -/
inductive Channel where
  | binarySnappy
  | dataPacket
  deriving Repr, DecidableEq, Inhabited

/-- An observable subscription action emitted by the lifecycle controller:
`nodeHandle.subscribe(...)` or `subscriber.shutdown()` on one channel. -/
inductive SubEvent where
  | subscribe (c : Channel)
  | shutdown (c : Channel)
  deriving Repr, DecidableEq, Inhabited

/-- The channel selected by `_useBinarySnappy` (lines 199 and 213). -/
def selectedChannel (s : NodeState) : Channel :=
  if s.useBinarySnappy then .binarySnappy else .dataPacket

/-- Model of `VelodynePostNode::initSubscribers` (lines 198-210): subscribe exactly one
of the two inputs, chosen by `_useBinarySnappy`, and set
`_subscriptionIsActive = true`. -/
def initSubscribers (s : NodeState) : NodeState × List SubEvent :=
  ({ s with subscriptionIsActive := true },
   [SubEvent.subscribe (selectedChannel s)])

/-- Model of `VelodynePostNode::shutdownSubscribers` (lines 212-218): shut the selected
subscription down and set `_subscriptionIsActive = false`. -/
def shutdownSubscribers (s : NodeState) : NodeState × List SubEvent :=
  ({ s with subscriptionIsActive := false },
   [SubEvent.shutdown (selectedChannel s)])

/-- Model of `VelodynePostNode::updateSubscription` (lines 189-196), one periodic tick:
active with zero subscribers shuts down; inactive with positive subscribers
initializes; every other combination does nothing. -/
def updateSubscription (numSubscribers : Nat) (s : NodeState) :
    NodeState × List SubEvent :=
  if s.subscriptionIsActive = true ∧ numSubscribers = 0 then
    shutdownSubscribers s
  else if s.subscriptionIsActive = false ∧ 0 < numSubscribers then
    initSubscribers s
  else
    (s, [])

/-- A run of periodic ticks, one per observed subscriber count, collecting the
subscription events emitted at each tick. -/
def runTicks : NodeState → List Nat → NodeState × List (List SubEvent)
  | s, [] => (s, [])
  | s, n :: ns =>
    let (s', evs) := updateSubscription n s
    let (sf, rest) := runTicks s' ns
    (sf, evs :: rest)

/-- A startup log entry (`ROS_WARN_STREAM` / `ROS_ERROR_STREAM`). -/
inductive LogMsg where
  | warn (s : String)
  | error (s : String)
  deriving Repr, DecidableEq, Inhabited

/-- The ROS parameter server as seen through `_nodeHandle.param(key, var,
default)`: for each recognized key, the stored value if the key is set. -/
structure ParamServer where
  minDistance : Option ℚ
  maxDistance : Option ℚ
  deviceName : Option String
  calibrationFile : Option String
  binarySnappyTopicName : Option String
  dataPacketTopicName : Option String
  pointCloudTopicName : Option String
  useBinarySnappy : Option Bool
  queueDepth : Option Int
  transportType : Option String
  numDataPackets : Option Int
  subscriptionUpdaterRate : Option ℚ
  deriving Repr, DecidableEq, Inhabited

/-- The members resolved by `getParameters`.  An `Option` field is `none` when
the corresponding `param` call was never made, modelling the member left at
its default-constructed / indeterminate value with no default assigned. -/
structure Config where
  minDistance : ℚ
  maxDistance : ℚ
  deviceName : String
  calibFileName : Option String
  velodyneBinarySnappyTopicName : String
  velodyneDataPacketTopicName : String
  pointCloudTopicName : String
  useBinarySnappy : Bool
  queueDepth : Int
  transportType : String
  numDataPackets : Option Int
  subscriptionUpdaterRate : ℚ
  deriving Repr, DecidableEq, Inhabited

/-- Model of `VelodynePostNode::getParameters` (lines 157-187).  The
`sensor/calibration_file` and `ros/num_data_packets` lookups are guarded by
the device-name dispatch: for an unrecognized device neither lookup runs
(`ROS_ERROR_STREAM` instead) and both members stay unresolved. -/
def getParameters (ps : ParamServer) : Config × List LogMsg :=
  let deviceName := ps.deviceName.getD "Velodyne HDL-32E"
  let calibAndLog : Option String × List LogMsg :=
    if deviceName = "Velodyne HDL-64E S2" then
      (some (ps.calibrationFile.getD "conf/calib-HDL-64E.dat"), [])
    else if deviceName = "Velodyne HDL-32E" then
      (some (ps.calibrationFile.getD "conf/calib-HDL-32E.dat"), [])
    else
      (none, [LogMsg.error ("Unknown device: " ++ deviceName)])
  let numDataPackets : Option Int :=
    if deviceName = "Velodyne HDL-64E S2" then some (ps.numDataPackets.getD 348)
    else if deviceName = "Velodyne HDL-32E" then some (ps.numDataPackets.getD 174)
    else none
  ({ minDistance := ps.minDistance.getD (9 / 10)
     maxDistance := ps.maxDistance.getD 120
     deviceName := deviceName
     calibFileName := calibAndLog.1
     velodyneBinarySnappyTopicName :=
       ps.binarySnappyTopicName.getD "/velodyne/binary_snappy"
     velodyneDataPacketTopicName :=
       ps.dataPacketTopicName.getD "/velodyne/data_packet"
     pointCloudTopicName := ps.pointCloudTopicName.getD "point_cloud"
     useBinarySnappy := ps.useBinarySnappy.getD true
     queueDepth := ps.queueDepth.getD 100
     transportType := ps.transportType.getD "udp"
     numDataPackets := numDataPackets
     subscriptionUpdaterRate := ps.subscriptionUpdaterRate.getD 1 },
   calibAndLog.2)

/-- The transport-hints dispatch in the constructor (lines 59-64): `"udp"` and
`"tcp"` are recognized, anything else logs an error and leaves
`_transportHints` at its default-constructed value (`none`). -/
def resolveTransportHints (transportType : String) :
    Option TransportHints × List LogMsg :=
  if transportType = "udp" then (some .unreliableThenReliable, [])
  else if transportType = "tcp" then (some .reliableThenUnreliable, [])
  else (none, [LogMsg.error ("Unknown transport type: " ++ transportType)])

/-- The calibration initialization in the constructor (lines 51-58):
default-construct a `Calibration`, stream the calibration file into it, and
catch an `IOException` with a `ROS_WARN_STREAM`.  The external stream
operator of libvelodyne is modelled as all-or-nothing: `calibFileContents` is
the parse result of the file named by `_calibFileName` (an unreadable or
malformed file is the `.error` case, which leaves the default-constructed
model in place). -/
def initCalibration (calibFileContents : Except String Calibration) :
    Calibration × List LogMsg :=
  match calibFileContents with
  | .ok c => (c, [])
  | .error e => (defaultCalibration, [LogMsg.warn ("IOException: " ++ e)])

/-- Model of `VelodynePostNode::VelodynePostNode` (lines 47-68): member initialization
(`_subscriptionIsActive(false)`, default-constructed `_frameId` and
`_dataPackets`), `getParameters()`, the calibration load with its catch, and
the transport-hints dispatch.  `uninitNumDataPackets` models the indeterminate
value the `int` member `_numDataPackets` keeps when the device name was
unrecognized and the `param` call never ran. -/
def nodeConstructor (ps : ParamServer)
    (calibFileContents : Except String Calibration)
    (uninitNumDataPackets : Int) : NodeState × List LogMsg :=
  let cfgLog := getParameters ps
  let calibLog := initCalibration calibFileContents
  let hintsLog := resolveTransportHints cfgLog.1.transportType
  ({ frameId := ""
     dataPackets := []
     numDataPackets := cfgLog.1.numDataPackets.getD uninitNumDataPackets
     minDistance := cfgLog.1.minDistance
     maxDistance := cfgLog.1.maxDistance
     useBinarySnappy := cfgLog.1.useBinarySnappy
     subscriptionIsActive := false
     calibration := calibLog.1
     transportHints := hintsLog.1 },
   cfgLog.2 ++ calibLog.2 ++ hintsLog.2)

/-! ### Concrete instances used to evaluate the model -/

/-- A concrete instantiation of the external collaborators, used to evaluate
the embedding on closed inputs: decompression is the identity (always
succeeding), deserialization reads nothing interesting, and the geometric map
writes the raw distance into `x` and passes the intensity through. -/
def extTest : Ext where
  snappyUncompress := fun bs => (true, bs)
  readBinary := fun bs =>
    .ok { mDataChunks := [], mTimestamp := 0, mSpinCount := bs.length,
          mReserved := 0 }
  convertSingleReturn := fun _ c ld =>
    { mX := ld.mDistance, mY := (c.mRotationalInfo : ℚ), mZ := 0,
      mIntensity := ld.mIntensity }

/-- A baseline node state for concrete evaluations. -/
def baseState : NodeState where
  frameId := "odom"
  dataPackets := []
  numDataPackets := 2
  minDistance := 9 / 10
  maxDistance := 120
  useBinarySnappy := true
  subscriptionIsActive := false
  calibration := defaultCalibration
  transportHints := some .unreliableThenReliable

/-! ### Shared lemmas -/

/-- Evaluating `publish` with zero subscribers emits nothing and does no work
(the early return of line 122-123). -/
theorem publish_zero (ext : Ext) (s : NodeState) : publish ext 0 s = some [] := by
  simp [publish]

/-- Evaluating `publish` with demand present on a nonempty batch emits exactly the message
built from the batch endpoints. -/
theorem publish_pos (ext : Ext) (n : Nat) (s : NodeState) (pf pl : DataPacket)
    (hn : n ≠ 0) (hf : s.dataPackets.head? = some pf)
    (hl : s.dataPackets.getLast? = some pl) :
    publish ext n s = some [mkPointCloudMsg ext s pf.mTimestamp pl.mTimestamp] := by
  simp [publish, hn, hf, hl]

/-- On a nonempty batch, `publish` never reaches the undefined
`front()`/`back()` accesses. -/
theorem publish_some_of_ne_nil (ext : Ext) (n : Nat) (s : NodeState)
    (h : s.dataPackets ≠ []) : ∃ out, publish ext n s = some out := by
  by_cases hn : n = 0
  · exact ⟨[], by simp [hn, publish_zero]⟩
  · have hf : s.dataPackets.head?.isSome := by
      cases hd : s.dataPackets with
      | nil => exact absurd hd h
      | cons a l => simp [hd]
    have hl : s.dataPackets.getLast?.isSome := by
      rw [List.getLast?_isSome]; exact h
    obtain ⟨pf, hpf⟩ := Option.isSome_iff_exists.mp hf
    obtain ⟨pl, hpl⟩ := Option.isSome_iff_exists.mp hl
    exact ⟨_, publish_pos ext n s pf pl hn hpf hpl⟩

/-- Every message emitted by `publish` carries the midpoint stamp of the batch
endpoints, the current `_frameId`, and the geometry and intensity channel of
the converted batch. -/
theorem publish_msg_shape (ext : Ext) (n : Nat) (s : NodeState)
    (out : List PointCloudMsg) (m : PointCloudMsg)
    (hpub : publish ext n s = some out) (hm : m ∈ out) :
    ∃ pf pl, s.dataPackets.head? = some pf ∧ s.dataPackets.getLast? = some pl ∧
      m = mkPointCloudMsg ext s pf.mTimestamp pl.mTimestamp := by
  unfold publish at hpub
  split at hpub
  · simp at hpub; subst hpub; simp at hm
  · cases hf : s.dataPackets.head? with
    | none => rw [hf] at hpub; simp at hpub
    | some pf =>
      cases hl : s.dataPackets.getLast? with
      | none => rw [hf, hl] at hpub; simp at hpub
      | some pl =>
        rw [hf, hl] at hpub
        simp at hpub
        subst hpub
        simp at hm
        exact ⟨pf, pl, rfl, rfl, hm⟩

/-- The configuration members never touched by the decode path. -/
def sameConfig (s s' : NodeState) : Prop :=
  s'.numDataPackets = s.numDataPackets ∧
  s'.minDistance = s.minDistance ∧
  s'.maxDistance = s.maxDistance ∧
  s'.useBinarySnappy = s.useBinarySnappy ∧
  s'.subscriptionIsActive = s.subscriptionIsActive ∧
  s'.calibration = s.calibration ∧
  s'.transportHints = s.transportHints

instance (s s' : NodeState) : Decidable (sameConfig s s') := by
  unfold sameConfig; infer_instance

theorem sameConfig_refl (s : NodeState) : sameConfig s s := by
  unfold sameConfig; exact ⟨rfl, rfl, rfl, rfl, rfl, rfl, rfl⟩

theorem sameConfig_trans {s t u : NodeState} (h1 : sameConfig s t)
    (h2 : sameConfig t u) : sameConfig s u := by
  obtain ⟨a1, a2, a3, a4, a5, a6, a7⟩ := h1
  obtain ⟨b1, b2, b3, b4, b5, b6, b7⟩ := h2
  exact ⟨b1.trans a1, b2.trans a2, b3.trans a3, b4.trans a4, b5.trans a5,
    b6.trans a6, b7.trans a7⟩

/-- The append tail below the full mark: push the packet, publish nothing. -/
theorem amp_not_full (ext : Ext) (n : Nat) (s : NodeState) (dp : DataPacket)
    (h : s.dataPackets.length + 1 ≠ castToSizeT s.numDataPackets) :
    appendAndMaybePublish ext n s dp =
      .ok { s with dataPackets := s.dataPackets ++ [dp] } none [] := by
  unfold appendAndMaybePublish
  simp [h]

/-- The append tail at the full mark: `publish()` receives the appended batch
and the accumulator is cleared. -/
theorem amp_full (ext : Ext) (n : Nat) (s : NodeState) (dp : DataPacket)
    (out : List PointCloudMsg)
    (h : s.dataPackets.length + 1 = castToSizeT s.numDataPackets)
    (hpub : publish ext n { s with dataPackets := s.dataPackets ++ [dp] } =
      some out) :
    appendAndMaybePublish ext n s dp =
      .ok { s with dataPackets := [] } (some (s.dataPackets ++ [dp])) out := by
  simp only [appendAndMaybePublish, List.length_append, List.length_cons,
    List.length_nil, zero_add, h, if_pos rfl, hpub, if_true]

/-- The append tail never reaches undefined behaviour: when `publish()` is
invoked the batch just appended to is nonempty. -/
theorem amp_ne_undef (ext : Ext) (n : Nat) (s : NodeState) (dp : DataPacket) :
    appendAndMaybePublish ext n s dp ≠ .undef := by
  simp only [appendAndMaybePublish]
  split
  · obtain ⟨out, hout⟩ :=
      publish_some_of_ne_nil ext n { s with dataPackets := s.dataPackets ++ [dp] }
        (by simp)
    rw [hout]
    simp
  · simp

/-- Inversion of a normal return of the append tail: the configuration and the
frame identifier are untouched; without a publish the packet was appended;
with a publish the published batch is the appended one, its size is the
configured count, and the accumulator was cleared. -/
theorem amp_ok_inv (ext : Ext) (n : Nat) (s : NodeState) (dp : DataPacket)
    (s' : NodeState) (pb : Option (List DataPacket)) (out : List PointCloudMsg)
    (h : appendAndMaybePublish ext n s dp = .ok s' pb out) :
    s'.frameId = s.frameId ∧ sameConfig s s' ∧
    (pb = none → s'.dataPackets = s.dataPackets ++ [dp] ∧ out = []) ∧
    (∀ b, pb = some b →
      b = s.dataPackets ++ [dp] ∧ b.length = castToSizeT s.numDataPackets ∧
      s'.dataPackets = [] ∧
      publish ext n { s with dataPackets := b } = some out) := by
  simp only [appendAndMaybePublish] at h
  split at h
  · rename_i hfull
    cases hpub : publish ext n { s with dataPackets := s.dataPackets ++ [dp] } with
    | none => rw [hpub] at h; simp at h
    | some o =>
      rw [hpub] at h
      simp at h
      obtain ⟨hs', hpb, hout⟩ := h
      subst hs'; subst hout
      refine ⟨rfl, by unfold sameConfig; simp, ?_, ?_⟩
      · intro hnone; rw [hnone] at hpb; simp at hpb
      · intro b hb
        rw [hb] at hpb
        simp at hpb
        subst hpb
        exact ⟨rfl, hfull, rfl, hpub⟩
  · simp at h
    obtain ⟨hs', hpb, hout⟩ := h
    subst hs'; subst hout
    refine ⟨rfl, by unfold sameConfig; simp, fun _ => ⟨rfl, rfl⟩, ?_⟩
    intro b hb
    rw [hb] at hpb
    simp at hpb

/-- The append tail never throws (it contains no external call). -/
theorem amp_ne_thrown (ext : Ext) (n : Nat) (s : NodeState) (dp : DataPacket)
    (e : String) (t : NodeState) :
    appendAndMaybePublish ext n s dp ≠ .thrown e t := by
  simp only [appendAndMaybePublish]
  split
  · split <;> simp
  · simp

/-- The raw callback is the frame-identifier assignment followed by the shared
append tail on the field-by-field decoded packet. -/
theorem rawCb_eq (ext : Ext) (n : Nat) (s : NodeState) (msg : DataPacketMsg) :
    velodyneDataPacketCallback ext n s msg =
      appendAndMaybePublish ext n { s with frameId := msg.header.frame_id }
        (decodeRawPacket msg) := rfl

/-- The raw callback never reaches undefined behaviour. -/
theorem rawCb_ne_undef (ext : Ext) (n : Nat) (s : NodeState)
    (msg : DataPacketMsg) : velodyneDataPacketCallback ext n s msg ≠ .undef := by
  rw [rawCb_eq]; exact amp_ne_undef _ _ _ _

/-- The raw callback never throws. -/
theorem rawCb_ne_thrown (ext : Ext) (n : Nat) (s : NodeState)
    (msg : DataPacketMsg) (e : String) (t : NodeState) :
    velodyneDataPacketCallback ext n s msg ≠ .thrown e t := by
  rw [rawCb_eq]; exact amp_ne_thrown _ _ _ _ _ _

/-- Inversion of a normal return of the raw callback. -/
theorem rawCb_ok_inv (ext : Ext) (n : Nat) (s : NodeState) (msg : DataPacketMsg)
    (s' : NodeState) (pb : Option (List DataPacket)) (out : List PointCloudMsg)
    (h : velodyneDataPacketCallback ext n s msg = .ok s' pb out) :
    s'.frameId = msg.header.frame_id ∧ sameConfig s s' ∧
    (pb = none → s'.dataPackets = s.dataPackets ++ [decodeRawPacket msg] ∧
      out = []) ∧
    (∀ b, pb = some b →
      b = s.dataPackets ++ [decodeRawPacket msg] ∧
      b.length = castToSizeT s.numDataPackets ∧ s'.dataPackets = [] ∧
      publish ext n { s with frameId := msg.header.frame_id, dataPackets := b } =
        some out) := by
  rw [rawCb_eq] at h
  have h2 := amp_ok_inv _ _ _ _ _ _ _ h
  simp only [] at h2
  exact h2

/-- The compressed callback when the binary deserialization of the
decompressed buffer throws: the exception escapes with the frame identifier
already updated and the batch untouched. -/
theorem binCb_error (ext : Ext) (n : Nat) (s : NodeState) (msg : BinarySnappyMsg)
    (e : String) (herr : ext.readBinary (ext.snappyUncompress msg.data).2 =
      .error e) :
    velodyneBinarySnappyCallback ext n s msg =
      .thrown e { s with frameId := msg.header.frame_id } := by
  simp only [velodyneBinarySnappyCallback, herr]

/-- The compressed callback when the binary deserialization returns a packet:
whatever the decompression success flag was, the packet (with its timestamp
overwritten by the message stamp) goes through the shared append tail. -/
theorem binCb_ok (ext : Ext) (n : Nat) (s : NodeState) (msg : BinarySnappyMsg)
    (dp : DataPacket)
    (hok : ext.readBinary (ext.snappyUncompress msg.data).2 = .ok dp) :
    velodyneBinarySnappyCallback ext n s msg =
      appendAndMaybePublish ext n { s with frameId := msg.header.frame_id }
        { dp with mTimestamp := msg.header.stamp } := by
  simp only [velodyneBinarySnappyCallback, hok]

/-- The compressed callback never reaches undefined behaviour. -/
theorem binCb_ne_undef (ext : Ext) (n : Nat) (s : NodeState)
    (msg : BinarySnappyMsg) :
    velodyneBinarySnappyCallback ext n s msg ≠ .undef := by
  cases hrb : ext.readBinary (ext.snappyUncompress msg.data).2 with
  | error e => rw [binCb_error ext n s msg e hrb]; simp
  | ok dp => rw [binCb_ok ext n s msg dp hrb]; exact amp_ne_undef _ _ _ _

/-- On either outcome of the compressed callback, the recorded state carries
the frame identifier of the message and an unchanged configuration, and on a throw
the batch is also unchanged. -/
theorem binCb_state_inv (ext : Ext) (n : Nat) (s : NodeState)
    (msg : BinarySnappyMsg) (s' : NodeState)
    (h : (velodyneBinarySnappyCallback ext n s msg).stateOf = some s') :
    s'.frameId = msg.header.frame_id ∧ sameConfig s s' := by
  cases hrb : ext.readBinary (ext.snappyUncompress msg.data).2 with
  | error e =>
    rw [binCb_error ext n s msg e hrb] at h
    simp [CbResult.stateOf] at h
    subst h
    exact ⟨rfl, by unfold sameConfig; simp⟩
  | ok dp =>
    rw [binCb_ok ext n s msg dp hrb] at h
    cases hamp : appendAndMaybePublish ext n
        { s with frameId := msg.header.frame_id }
        { dp with mTimestamp := msg.header.stamp } with
    | ok t pb out =>
      rw [hamp] at h
      simp [CbResult.stateOf] at h
      subst h
      have h2 := amp_ok_inv _ _ _ _ _ _ _ hamp
      simp only [] at h2
      exact ⟨h2.1, h2.2.1⟩
    | thrown e t => exact absurd hamp (amp_ne_thrown _ _ _ _ _ _)
    | undef => exact absurd hamp (amp_ne_undef _ _ _ _)

/-- Evaluation of `runRaw` on the empty message list. -/
theorem runRaw_nil (ext : Ext) (n : Nat) (s : NodeState) :
    runRaw ext n s [] = some (s, [], []) := rfl

/-- One-step unfolding of `runRaw`. -/
theorem runRaw_cons (ext : Ext) (n : Nat) (s : NodeState) (m : DataPacketMsg)
    (msgs : List DataPacketMsg) :
    runRaw ext n s (m :: msgs) =
      match velodyneDataPacketCallback ext n s m with
      | .ok s' pb out =>
        match runRaw ext n s' msgs with
        | some (sf, pbs, outs) => some (sf, pb.toList ++ pbs, out ++ outs)
        | none => none
      | _ => none := rfl

/-- The runner `runRaw` distributes over list concatenation. -/
theorem runRaw_append (ext : Ext) (n : Nat) :
    ∀ (xs ys : List DataPacketMsg) (s : NodeState),
    runRaw ext n s (xs ++ ys) =
      match runRaw ext n s xs with
      | some (s1, pbs1, outs1) =>
        match runRaw ext n s1 ys with
        | some (s2, pbs2, outs2) => some (s2, pbs1 ++ pbs2, outs1 ++ outs2)
        | none => none
      | none => none := by
  intro xs
  induction xs with
  | nil =>
    intro ys s
    simp [runRaw_nil]
    cases runRaw ext n s ys with
    | none => rfl
    | some r => rfl
  | cons m rest ih =>
    intro ys s
    rw [List.cons_append, runRaw_cons, runRaw_cons]
    cases velodyneDataPacketCallback ext n s m with
    | ok s' pb out =>
      simp only []
      rw [ih ys s']
      cases hr : runRaw ext n s' rest with
      | none => rfl
      | some r1 =>
        obtain ⟨s1, pbs1, outs1⟩ := r1
        simp only []
        cases hr2 : runRaw ext n s1 ys with
        | none => rfl
        | some r2 =>
          obtain ⟨s2, pbs2, outs2⟩ := r2
          simp [List.append_assoc]
    | thrown e t => rfl
    | undef => rfl

/-- Running the raw callback over any message list from a state whose batch is
below the full mark succeeds (no throw, no undefined behaviour), keeps the
batch below the full mark, and leaves the configuration unchanged. -/
theorem runRaw_below (ext : Ext) (n : Nat) :
    ∀ (msgs : List DataPacketMsg) (s : NodeState),
    s.dataPackets.length < castToSizeT s.numDataPackets →
    ∃ sf pbs outs, runRaw ext n s msgs = some (sf, pbs, outs) ∧
      sf.dataPackets.length < castToSizeT sf.numDataPackets ∧
      sameConfig s sf := by
  intro msgs
  induction msgs with
  | nil =>
    intro s hs
    exact ⟨s, [], [], runRaw_nil ext n s, hs, sameConfig_refl s⟩
  | cons m rest ih =>
    intro s hs
    rw [runRaw_cons]
    set s1 : NodeState := { s with frameId := m.header.frame_id } with hs1
    have hlen : s1.dataPackets.length < castToSizeT s1.numDataPackets := hs
    by_cases hfull : s.dataPackets.length + 1 = castToSizeT s.numDataPackets
    · obtain ⟨out, hout⟩ := publish_some_of_ne_nil ext n
        { s1 with dataPackets := s1.dataPackets ++ [decodeRawPacket m] } (by simp)
      have hcb : velodyneDataPacketCallback ext n s m =
          .ok { s1 with dataPackets := [] }
            (some (s1.dataPackets ++ [decodeRawPacket m])) out := by
        rw [rawCb_eq]
        exact amp_full ext n s1 (decodeRawPacket m) out hfull hout
      rw [hcb]
      simp only []
      have hpos : 0 < castToSizeT s.numDataPackets :=
        Nat.lt_of_le_of_lt (Nat.zero_le _) hs
      obtain ⟨sf, pbs, outs, hrun, hlt, hcfg⟩ := ih { s1 with dataPackets := [] }
        (by simpa using hpos)
      refine ⟨sf, (s1.dataPackets ++ [decodeRawPacket m]) :: pbs, out ++ outs,
        ?_, hlt, ?_⟩
      · rw [hrun]
        simp [Option.toList]
      · exact sameConfig_trans (s := s) (t := { s1 with dataPackets := [] })
          (by unfold sameConfig; simp) hcfg
    · have hcb : velodyneDataPacketCallback ext n s m =
          .ok { s1 with dataPackets := s1.dataPackets ++ [decodeRawPacket m] }
            none [] := by
        rw [rawCb_eq]
        exact amp_not_full ext n s1 (decodeRawPacket m) hfull
      rw [hcb]
      simp only []
      have hlt1 : s.dataPackets.length + 1 < castToSizeT s.numDataPackets :=
        Nat.lt_of_le_of_ne hs hfull
      obtain ⟨sf, pbs, outs, hrun, hlt, hcfg⟩ := ih
        { s1 with dataPackets := s1.dataPackets ++ [decodeRawPacket m] }
        (by simpa using hlt1)
      refine ⟨sf, pbs, outs, ?_, hlt, ?_⟩
      · rw [hrun]; simp [Option.toList]
      · exact sameConfig_trans (s := s)
          (t := { s1 with dataPackets := s1.dataPackets ++ [decodeRawPacket m] })
          (by unfold sameConfig; simp) hcfg

/-- Feeding exactly the messages that complete the batch: the final callback
invokes `publish()` on the accumulated-plus-decoded packets in arrival order,
the accumulator ends empty, and the frame identifier is that of the last message. -/
theorem runRaw_accum (ext : Ext) (n : Nat) :
    ∀ (msgs : List DataPacketMsg) (s : NodeState) (lastMsg : DataPacketMsg),
    msgs.getLast? = some lastMsg →
    s.dataPackets.length + msgs.length = castToSizeT s.numDataPackets →
    ∃ out,
      runRaw ext n s msgs = some
        ({ s with frameId := lastMsg.header.frame_id, dataPackets := [] },
         [s.dataPackets ++ msgs.map decodeRawPacket], out) ∧
      publish ext n
        { s with frameId := lastMsg.header.frame_id,
                 dataPackets := s.dataPackets ++ msgs.map decodeRawPacket } =
        some out := by
  intro msgs
  induction msgs with
  | nil => intro s lastMsg hlast; simp at hlast
  | cons m rest ih =>
    intro s lastMsg hlast hcount
    cases rest with
    | nil =>
      have hm : m = lastMsg := by simpa using hlast
      subst hm
      have hcount1 : s.dataPackets.length + 1 = castToSizeT s.numDataPackets := by
        simpa using hcount
      set s1 : NodeState := { s with frameId := m.header.frame_id } with hs1
      obtain ⟨out, hout⟩ := publish_some_of_ne_nil ext n
        { s1 with dataPackets := s1.dataPackets ++ [decodeRawPacket m] }
        (by simp)
      have hcb : velodyneDataPacketCallback ext n s m =
          .ok { s1 with dataPackets := [] }
            (some (s1.dataPackets ++ [decodeRawPacket m])) out := by
        rw [rawCb_eq]
        exact amp_full ext n s1 (decodeRawPacket m) out hcount1 hout
      refine ⟨out, ?_, ?_⟩
      · rw [runRaw_cons, hcb]
        simp [runRaw_nil, Option.toList]
      · exact hout
    | cons r rest' =>
      have hne : s.dataPackets.length + 1 ≠ castToSizeT s.numDataPackets := by
        intro heq
        rw [← heq] at hcount
        simp [List.length_cons] at hcount
      set s1 : NodeState := { s with frameId := m.header.frame_id } with hs1
      have hcb : velodyneDataPacketCallback ext n s m =
          .ok { s1 with dataPackets := s1.dataPackets ++ [decodeRawPacket m] }
            none [] := by
        rw [rawCb_eq]
        exact amp_not_full ext n s1 (decodeRawPacket m) hne
      have hlast' : (r :: rest').getLast? = some lastMsg := by
        rw [← hlast]; simp [List.getLast?_cons_cons]
      have hcount' :
          (s1.dataPackets ++ [decodeRawPacket m]).length + (r :: rest').length =
            castToSizeT s.numDataPackets := by
        simp only [List.length_append, List.length_cons, List.length_nil]
        simp only [List.length_cons] at hcount
        omega
      obtain ⟨out, hrun, hpub⟩ := ih
        { s1 with dataPackets := s1.dataPackets ++ [decodeRawPacket m] }
        lastMsg hlast' hcount'
      refine ⟨out, ?_, ?_⟩
      · rw [runRaw_cons, hcb]
        simp only []
        rw [hrun]
        simp [Option.toList, List.append_assoc]
      · rw [← hpub]
        congr 1
        simp [List.append_assoc]

/-! ### Further concrete fixtures -/

/-- A chunkless packet with a given timestamp. -/
def packetAt (t : Nat) : DataPacket :=
  { mDataChunks := [], mTimestamp := t, mSpinCount := 0, mReserved := 0 }

/-- A chunkless raw message with a given stamp and frame identifier. -/
def msgAt (t : Nat) (f : String) : DataPacketMsg :=
  { header := { stamp := t, frame_id := f }, dataChunks := [], spinCount := 0,
    reserved := 0 }

/-- External collaborators exhibiting a decompression failure:
`snappy::Uncompress` reports failure (flag `false`, output buffer left empty),
and the binary deserialization of the leftover buffer returns without
throwing, yielding a default-initialized packet (what a non-throwing
`std::istream` read chain produces on an empty stream). -/
def extBadSnappy : Ext where
  snappyUncompress := fun _ => (false, [])
  readBinary := fun _ => .ok default
  convertSingleReturn := fun _ _ ld =>
    { mX := 0, mY := 0, mZ := 0, mIntensity := ld.mIntensity }

/-- A compressed message whose payload fails decompression under
`extBadSnappy`. -/
def corruptMsg : BinarySnappyMsg :=
  { header := { stamp := 7, frame_id := "velodyne" }, data := [1, 2, 3] }

/-- C1: the claim states that a compressed message whose decoding fails is
never appended to the batch, is reported, and leaves the packet count of the batch
unchanged.  The code contradicts this: `velodyneBinarySnappyCallback` ignores
the boolean result of `snappy::Uncompress` (line 106) and unconditionally
appends the deserialization of the (garbage) output buffer, reporting
nothing.  Evaluated at a concrete failing input: the decompression flag is
`false`, yet the callback returns normally with the batch grown from 0 to 1
packet and no report. -/
theorem decode_failure_is_appended :
    (extBadSnappy.snappyUncompress corruptMsg.data).1 = false ∧
    velodyneBinarySnappyCallback extBadSnappy 1 baseState corruptMsg =
      .ok { baseState with
            frameId := "velodyne"
            dataPackets := [{ (default : DataPacket) with mTimestamp := 7 }] }
        none [] ∧
    ({ baseState with
       frameId := "velodyne"
       dataPackets :=
         [{ (default : DataPacket) with mTimestamp := 7 }] }).dataPackets.length
      = baseState.dataPackets.length + 1 := by
  refine ⟨rfl, ?_, rfl⟩
  rfl

/-- C4: the stamp of every published message is
`first_packet.timestamp + round((last_packet.timestamp - first_packet.timestamp) * 0.5)`
(`midTimestamp`), the batch-endpoint midpoint. -/
theorem timestamp_midpoint (ext : Ext) (n : Nat) (s : NodeState)
    (pf pl : DataPacket) (out : List PointCloudMsg) (m : PointCloudMsg)
    (hf : s.dataPackets.head? = some pf) (hl : s.dataPackets.getLast? = some pl)
    (hpub : publish ext n s = some out) (hm : m ∈ out) :
    m.stamp = midTimestamp pf.mTimestamp pl.mTimestamp := by
  obtain ⟨pf', pl', hf', hl', hmk⟩ := publish_msg_shape ext n s out m hpub hm
  rw [hf] at hf'
  rw [hl] at hl'
  cases hf'
  cases hl'
  rw [hmk]
  rfl

/-- The state holding the two-packet batch with timestamps 1000 and 3000. -/
def sC4 : NodeState :=
  { baseState with dataPackets := [packetAt 1000, packetAt 3000] }

/-- Witness for C4: a batch whose first packet has timestamp 1000 and last
packet has timestamp 3000 is published with stamp 2000. -/
theorem timestamp_midpoint_witness :
    (mkPointCloudMsg extTest sC4 1000 3000).stamp = 2000 := by
  have h := timestamp_midpoint extTest 1 sC4 (packetAt 1000) (packetAt 3000)
    [mkPointCloudMsg extTest sC4 1000 3000]
    (mkPointCloudMsg extTest sC4 1000 3000)
    (by decide) (by decide) (by decide) (by simp)
  rw [h]
  decide

/-- Conversion of one chunk as filtering the returns of that chunk then mapping the
geometric conversion. -/
theorem chunk_filter_map (ext : Ext) (calib : Calibration) (minD maxD : ℚ)
    (c : DataChunk) :
    ∀ lds : List LaserData,
    (lds.flatMap fun ld =>
      if inRange minD maxD ld then [ext.convertSingleReturn calib c ld] else []) =
    (((lds.map fun ld => (c, ld)).filter fun cl => inRange minD maxD cl.2).map
      fun cl => ext.convertSingleReturn calib cl.1 cl.2) := by
  intro lds
  induction lds with
  | nil => rfl
  | cons ld rest ih =>
    by_cases h : inRange minD maxD ld = true
    · simp [List.flatMap_cons, List.filter_cons, h, ih]
    · simp [List.flatMap_cons, List.filter_cons, h, ih]

/-- Conversion of one packet as filtering the returns of the packet (in chunk then
laser order) then mapping the geometric conversion. -/
theorem packet_filter_map (ext : Ext) (calib : Calibration) (minD maxD : ℚ)
    (p : DataPacket) :
    toPointCloud ext calib p minD maxD =
      (((packetReturns p).filter fun cl => inRange minD maxD cl.2).map
        fun cl => ext.convertSingleReturn calib cl.1 cl.2) := by
  unfold toPointCloud packetReturns
  induction p.mDataChunks with
  | nil => rfl
  | cons c rest ih =>
    simp only [List.flatMap_cons, List.filter_append, List.map_append]
    rw [chunk_filter_map, ih]

/-- C5: for every batch, the converted cloud contains a point for a raw laser
return iff `minDistance <= rawDistance <= maxDistance` (`inRange`), in packet
order then chunk order then laser order; concretely, with thresholds
`0.9`/`120.0`, returns at distances `0.5` and `150.0` are dropped while `1.0`
and `60.0` are kept. -/
theorem distance_filter :
    (∀ (ext : Ext) (calib : Calibration) (batch : List DataPacket)
        (minD maxD : ℚ),
      (batch.flatMap fun p => toPointCloud ext calib p minD maxD) =
        (((batchReturns batch).filter fun cl => inRange minD maxD cl.2).map
          fun cl => ext.convertSingleReturn calib cl.1 cl.2)) ∧
    ((toPointCloud extTest defaultCalibration
        { mDataChunks :=
            [{ mHeaderInfo := 0, mRotationalInfo := 0
               mLaserData := [{ mDistance := 1/2, mIntensity := 10 },
                 { mDistance := 1, mIntensity := 20 },
                 { mDistance := 60, mIntensity := 30 },
                 { mDistance := 150, mIntensity := 40 }] }]
          mTimestamp := 0
          mSpinCount := 0
          mReserved := 0 }
        (9/10) 120).map Point.mX = [1, 60]) := by
  constructor
  · intro ext calib batch minD maxD
    unfold batchReturns
    induction batch with
    | nil => rfl
    | cons p rest ih =>
      simp only [List.flatMap_cons, List.filter_append, List.map_append]
      rw [packet_filter_map, ih]
  · simp only [toPointCloud, inRange, extTest, List.flatMap_cons,
      List.flatMap_nil, List.append_nil]
    norm_num

/-- C6: the lifecycle controller starts `Inactive` (the constructor sets
`_subscriptionIsActive(false)`); a tick on `Inactive` with positive consumer
count activates and subscribes exactly the one input selected by
`_useBinarySnappy`; a tick on `Active` with zero count deactivates and shuts
that subscription down; every other combination makes no transition; and on
the count trace `[0, 0, 1, 1, 0]` only the third tick activates and only the
fifth deactivates. -/
theorem lifecycle_transitions :
    (∀ ps cf u, ((nodeConstructor ps cf u).1).subscriptionIsActive = false) ∧
    (∀ (n : Nat) (s : NodeState), s.subscriptionIsActive = false → 0 < n →
      updateSubscription n s =
        ({ s with subscriptionIsActive := true },
         [SubEvent.subscribe (selectedChannel s)])) ∧
    (∀ (n : Nat) (s : NodeState), s.subscriptionIsActive = true → n = 0 →
      updateSubscription n s =
        ({ s with subscriptionIsActive := false },
         [SubEvent.shutdown (selectedChannel s)])) ∧
    (∀ (n : Nat) (s : NodeState), ¬(s.subscriptionIsActive = true ∧ n = 0) →
      ¬(s.subscriptionIsActive = false ∧ 0 < n) →
      updateSubscription n s = (s, [])) ∧
    (∀ s : NodeState, s.subscriptionIsActive = false →
      (runTicks s [0, 0, 1, 1, 0]).2 =
        [[], [], [SubEvent.subscribe (selectedChannel s)], [],
         [SubEvent.shutdown (selectedChannel s)]]) := by
  refine ⟨fun ps cf u => rfl, ?_, ?_, ?_, ?_⟩
  · intro n s hs hn
    simp [updateSubscription, initSubscribers, hs, hn, Nat.pos_iff_ne_zero.mp hn]
  · intro n s hs hn
    simp [updateSubscription, shutdownSubscribers, hs, hn]
  · intro n s h1 h2
    simp only [updateSubscription, if_neg h1, if_neg h2]
  · intro s hs
    cases s with
    | mk f dp nd mi ma ub sa cal th =>
      simp only [] at hs
      subst hs
      simp [runTicks, updateSubscription, initSubscribers,
        shutdownSubscribers, selectedChannel]

/-- Witness for C6, at the initial inactive `baseState` (compressed input
selected): the trace `[0, 0, 1, 1, 0]` emits exactly one subscribe on the
third tick and one shutdown on the fifth. -/
theorem lifecycle_transitions_witness :
    (runTicks baseState [0, 0, 1, 1, 0]).2 =
      [[], [], [SubEvent.subscribe Channel.binarySnappy], [],
       [SubEvent.shutdown Channel.binarySnappy]] := by
  have h := lifecycle_transitions.2.2.2.2 baseState rfl
  simpa [selectedChannel, baseState] using h

/-- C7: if loading the calibration file fails at startup, the constructor
returns normally (no crash) with the default-constructed calibration model in
place and the condition logged as a warning; the decode callbacks never touch
the calibration member, and the geometry of every published message is computed
from the calibration model held in the state — so all subsequent conversions use the
default model.  The external calibration stream operator is modelled
all-or-nothing (see `initCalibration`). -/
theorem calibration_load_fallback (ps : ParamServer) (e : String) (u : Int) :
    (nodeConstructor ps (.error e) u).1.calibration = defaultCalibration ∧
    LogMsg.warn ("IOException: " ++ e) ∈ (nodeConstructor ps (.error e) u).2 ∧
    (∀ (ext : Ext) (n : Nat) (s : NodeState) (msg : DataPacketMsg)
        (r : NodeState),
      (velodyneDataPacketCallback ext n s msg).stateOf = some r →
      r.calibration = s.calibration) ∧
    (∀ (ext : Ext) (n : Nat) (s : NodeState) (msg : BinarySnappyMsg)
        (r : NodeState),
      (velodyneBinarySnappyCallback ext n s msg).stateOf = some r →
      r.calibration = s.calibration) ∧
    (∀ (ext : Ext) (n : Nat) (t : NodeState) (out : List PointCloudMsg)
        (m : PointCloudMsg),
      publish ext n t = some out → m ∈ out →
      m.points = (conversionCloud ext t).map fun pt => (pt.mX, pt.mY, pt.mZ)) := by
  refine ⟨rfl, ?_, ?_, ?_, ?_⟩
  · simp [nodeConstructor, initCalibration]
  · intro ext n s msg r h
    cases hcb : velodyneDataPacketCallback ext n s msg with
    | ok s' pb out =>
      rw [hcb] at h
      simp [CbResult.stateOf] at h
      subst h
      exact ((rawCb_ok_inv ext n s msg s' pb out hcb).2.1).2.2.2.2.2.1
    | thrown e' t => exact absurd hcb (rawCb_ne_thrown ext n s msg e' t)
    | undef => rw [hcb] at h; simp [CbResult.stateOf] at h
  · intro ext n s msg r h
    exact ((binCb_state_inv ext n s msg r h).2).2.2.2.2.2.1
  · intro ext n t out m hpub hm
    obtain ⟨pf, pl, _, _, hmk⟩ := publish_msg_shape ext n t out m hpub hm
    rw [hmk]
    rfl

/-- The parameter server with every key unset (all defaults apply). -/
def emptyParamServer : ParamServer where
  minDistance := none
  maxDistance := none
  deviceName := none
  calibrationFile := none
  binarySnappyTopicName := none
  dataPacketTopicName := none
  pointCloudTopicName := none
  useBinarySnappy := none
  queueDepth := none
  transportType := none
  numDataPackets := none
  subscriptionUpdaterRate := none

/-- The state after one raw callback on `baseState` (batch capacity 2, so no
publish yet). -/
def afterOneRaw : NodeState :=
  { baseState with
    frameId := "map"
    dataPackets := [decodeRawPacket (msgAt 11 "map")] }

/-- Witness for C7, at concrete inputs: a failing calibration load yields the
default-constructed model and the logged warning, and a concrete decode
callback leaves the calibration member unchanged. -/
theorem calibration_load_fallback_witness :
    (nodeConstructor emptyParamServer (.error "bad calib file") 0).1.calibration
      = defaultCalibration ∧
    LogMsg.warn ("IOException: " ++ "bad calib file")
      ∈ (nodeConstructor emptyParamServer (.error "bad calib file") 0).2 ∧
    afterOneRaw.calibration = baseState.calibration := by
  have h := calibration_load_fallback emptyParamServer "bad calib file" 0
  refine ⟨h.1, h.2.1, ?_⟩
  exact h.2.2.1 extTest 0 baseState (msgAt 11 "map") afterOneRaw rfl

/-- C8: an unrecognized `device_name` together with an unrecognized
`transport_type` is reported loudly at startup (one error log each), the
process is not aborted (the constructor still returns a state, and the
unaffected parameters are resolved with their documented defaults), and the
affected members — calibration file path, number of data packets per
revolution, transport hints — are left unresolved with no default value
assigned. -/
theorem config_errors (ps : ParamServer) (cf : Except String Calibration)
    (u : Int)
    (hdev64 : ps.deviceName.getD "Velodyne HDL-32E" ≠ "Velodyne HDL-64E S2")
    (hdev32 : ps.deviceName.getD "Velodyne HDL-32E" ≠ "Velodyne HDL-32E")
    (htrUdp : ps.transportType.getD "udp" ≠ "udp")
    (htrTcp : ps.transportType.getD "udp" ≠ "tcp") :
    (getParameters ps).1.calibFileName = none ∧
    (getParameters ps).1.numDataPackets = none ∧
    (nodeConstructor ps cf u).1.transportHints = none ∧
    LogMsg.error ("Unknown device: " ++ ps.deviceName.getD "Velodyne HDL-32E")
      ∈ (nodeConstructor ps cf u).2 ∧
    LogMsg.error
        ("Unknown transport type: " ++ ps.transportType.getD "udp")
      ∈ (nodeConstructor ps cf u).2 ∧
    (getParameters ps).1.minDistance = ps.minDistance.getD (9 / 10) ∧
    (getParameters ps).1.maxDistance = ps.maxDistance.getD 120 ∧
    (getParameters ps).1.useBinarySnappy = ps.useBinarySnappy.getD true ∧
    (getParameters ps).1.queueDepth = ps.queueDepth.getD 100 := by
  have hcfg : (getParameters ps).1.transportType = ps.transportType.getD "udp" :=
    rfl
  refine ⟨?_, ?_, ?_, ?_, ?_, rfl, rfl, rfl, rfl⟩
  · simp [getParameters, hdev64, hdev32]
  · simp [getParameters, hdev64, hdev32]
  · simp [nodeConstructor, resolveTransportHints, getParameters, htrUdp, htrTcp]
  · simp [nodeConstructor, getParameters, initCalibration,
      resolveTransportHints, hdev64, hdev32]
  · simp [nodeConstructor, getParameters, initCalibration,
      resolveTransportHints, htrUdp, htrTcp]

/-- A parameter server configuring an unknown device and an unknown
transport. -/
def badParamServer : ParamServer :=
  { emptyParamServer with
    deviceName := some "Velodyne VLP-16"
    transportType := some "serial" }

/-- Witness for C8 at a concrete misconfiguration (`device_name` =
"Velodyne VLP-16", `transport_type` = "serial"). -/
theorem config_errors_witness :
    (getParameters badParamServer).1.calibFileName = none ∧
    (getParameters badParamServer).1.numDataPackets = none ∧
    (nodeConstructor badParamServer (.ok defaultCalibration) 0).1.transportHints
      = none := by
  have h := config_errors badParamServer (.ok defaultCalibration) 0
    (by decide) (by decide) (by decide) (by decide)
  exact ⟨h.1, h.2.1, h.2.2.1⟩

/-- C9: `publish()` is invoked by a decode callback only immediately after an
append, when the batch size equals `static_cast<size_t>(_numDataPackets)` and
is at least 1 — so `front()` and `back()` are always well-defined there, and
neither callback can reach the undefined empty-batch accesses. -/
theorem publish_only_on_full_nonempty :
    (∀ (ext : Ext) (n : Nat) (s : NodeState) (msg : DataPacketMsg)
        (s' : NodeState) (b : List DataPacket) (out : List PointCloudMsg),
      velodyneDataPacketCallback ext n s msg = .ok s' (some b) out →
      b = s.dataPackets ++ [decodeRawPacket msg] ∧
      b.length = castToSizeT s.numDataPackets ∧ 1 ≤ b.length ∧
      b.head?.isSome = true ∧ b.getLast?.isSome = true ∧
      s'.dataPackets = []) ∧
    (∀ (ext : Ext) (n : Nat) (s : NodeState) (msg : DataPacketMsg),
      velodyneDataPacketCallback ext n s msg ≠ .undef) ∧
    (∀ (ext : Ext) (n : Nat) (s : NodeState) (msg : BinarySnappyMsg),
      velodyneBinarySnappyCallback ext n s msg ≠ .undef) := by
  refine ⟨?_, rawCb_ne_undef, binCb_ne_undef⟩
  intro ext n s msg s' b out hcb
  obtain ⟨-, -, -, hsome⟩ := rawCb_ok_inv ext n s msg s' (some b) out hcb
  obtain ⟨hb, hlen, hclear, -⟩ := hsome b rfl
  have hne : b ≠ [] := by rw [hb]; simp
  refine ⟨hb, hlen, ?_, ?_, ?_, hclear⟩
  · have : 0 < b.length := List.length_pos.mpr hne
    omega
  · cases hd : b with
    | nil => exact absurd hd hne
    | cons a l => simp
  · rw [List.getLast?_isSome]; exact hne

/-- The state with batch capacity 1 (every message completes a batch). -/
def oneState : NodeState := { baseState with numDataPackets := 1 }

/-- Witness for C9: at batch capacity 1, the first raw message triggers a
publish of the singleton appended batch, which is nonempty with well-defined
endpoints. -/
theorem publish_only_on_full_nonempty_witness :
    [decodeRawPacket (msgAt 5 "f")] =
      oneState.dataPackets ++ [decodeRawPacket (msgAt 5 "f")] ∧
    ([decodeRawPacket (msgAt 5 "f")]).length = castToSizeT oneState.numDataPackets ∧
    1 ≤ ([decodeRawPacket (msgAt 5 "f")]).length ∧
    ([decodeRawPacket (msgAt 5 "f")]).head?.isSome = true ∧
    ([decodeRawPacket (msgAt 5 "f")]).getLast?.isSome = true ∧
    ({ oneState with frameId := "f", dataPackets := [] } : NodeState).dataPackets
      = [] := by
  exact publish_only_on_full_nonempty.1 extTest 0 oneState (msgAt 5 "f")
    { oneState with frameId := "f", dataPackets := [] }
    [decodeRawPacket (msgAt 5 "f")] [] rfl

/-- C10: every decode callback updates the stored frame identifier from the
message header regardless of decode success — in the compressed path the
assignment happens before the binary deserialization, so even a throwing
decode leaves the new frame identifier in place and the batch untouched —
and, beyond `_frameId` and `_dataPackets`, no other node state is mutated
(`sameConfig`); published clouds carry the stored frame identifier. -/
theorem frame_id_always_updated :
    (∀ (ext : Ext) (n : Nat) (s : NodeState) (msg : DataPacketMsg)
        (r : NodeState),
      (velodyneDataPacketCallback ext n s msg).stateOf = some r →
      r.frameId = msg.header.frame_id ∧ sameConfig s r) ∧
    (∀ (ext : Ext) (n : Nat) (s : NodeState) (msg : BinarySnappyMsg)
        (r : NodeState),
      (velodyneBinarySnappyCallback ext n s msg).stateOf = some r →
      r.frameId = msg.header.frame_id ∧ sameConfig s r) ∧
    (∀ (ext : Ext) (n : Nat) (s : NodeState) (msg : BinarySnappyMsg)
        (e : String) (r : NodeState),
      velodyneBinarySnappyCallback ext n s msg = .thrown e r →
      r.frameId = msg.header.frame_id ∧ r.dataPackets = s.dataPackets ∧
      sameConfig s r) ∧
    (∀ (ext : Ext) (n : Nat) (t : NodeState) (out : List PointCloudMsg)
        (m : PointCloudMsg),
      publish ext n t = some out → m ∈ out → m.frame_id = t.frameId) := by
  refine ⟨?_, ?_, ?_, ?_⟩
  · intro ext n s msg r h
    cases hcb : velodyneDataPacketCallback ext n s msg with
    | ok s' pb out =>
      rw [hcb] at h
      simp [CbResult.stateOf] at h
      subst h
      obtain ⟨hf, hcfg, -, -⟩ := rawCb_ok_inv ext n s msg s' pb out hcb
      exact ⟨hf, hcfg⟩
    | thrown e' t => exact absurd hcb (rawCb_ne_thrown ext n s msg e' t)
    | undef => rw [hcb] at h; simp [CbResult.stateOf] at h
  · intro ext n s msg r h
    exact binCb_state_inv ext n s msg r h
  · intro ext n s msg e r h
    cases hrb : ext.readBinary (ext.snappyUncompress msg.data).2 with
    | error e' =>
      rw [binCb_error ext n s msg e' hrb] at h
      simp at h
      obtain ⟨-, hr⟩ := h
      subst hr
      exact ⟨rfl, rfl, by unfold sameConfig; simp⟩
    | ok dp =>
      rw [binCb_ok ext n s msg dp hrb] at h
      exact absurd h (amp_ne_thrown _ _ _ _ _ _)
  · intro ext n t out m hpub hm
    obtain ⟨pf, pl, -, -, hmk⟩ := publish_msg_shape ext n t out m hpub hm
    rw [hmk]
    rfl

/-- External collaborators whose binary deserialization always throws. -/
def extThrowing : Ext :=
  { extTest with readBinary := fun _ => .error "IOException" }

/-- Witness for C10: a compressed message whose deserialization throws still
updates the frame identifier, and leaves the batch and configuration
unchanged. -/
theorem frame_id_always_updated_witness :
    ({ baseState with frameId := "velodyne" } : NodeState).frameId = "velodyne" ∧
    ({ baseState with frameId := "velodyne" } : NodeState).dataPackets =
      baseState.dataPackets ∧
    sameConfig baseState { baseState with frameId := "velodyne" } := by
  exact frame_id_always_updated.2.2.1 extThrowing 1 baseState corruptMsg
    "IOException" { baseState with frameId := "velodyne" } rfl

/-- Feeding `m` full batches of raw messages from an empty accumulator:
`publish()` is invoked exactly `m` times, each time on a batch of exactly the
configured size, the concatenation of the published batches is the decoded
message sequence in arrival order, and the accumulator ends empty. -/
theorem runRaw_multiple (ext : Ext) (n : Nat) :
    ∀ (m : Nat) (msgs : List DataPacketMsg) (s : NodeState),
    s.dataPackets = [] → 0 < castToSizeT s.numDataPackets →
    msgs.length = m * castToSizeT s.numDataPackets →
    ∃ sf pbs outs, runRaw ext n s msgs = some (sf, pbs, outs) ∧
      pbs.length = m ∧
      (∀ b ∈ pbs, b.length = castToSizeT s.numDataPackets) ∧
      pbs.flatten = msgs.map decodeRawPacket ∧
      sf.dataPackets = [] ∧ sameConfig s sf := by
  intro m
  induction m with
  | zero =>
    intro msgs s h0 hk hN
    simp at hN
    subst hN
    exact ⟨s, [], [], runRaw_nil ext n s, rfl, by simp, by simp, h0,
      sameConfig_refl s⟩
  | succ m ih =>
    intro msgs s h0 hk hN
    have hkle : castToSizeT s.numDataPackets ≤ msgs.length := by
      rw [hN, Nat.succ_mul]
      exact Nat.le_add_left _ _
    have hlen_take : (msgs.take (castToSizeT s.numDataPackets)).length =
        castToSizeT s.numDataPackets := by
      rw [List.length_take]
      exact Nat.min_eq_left hkle
    have htake_ne : msgs.take (castToSizeT s.numDataPackets) ≠ [] := by
      intro hnil
      rw [hnil] at hlen_take
      simp at hlen_take
      omega
    obtain ⟨lastMsg, hlast⟩ :=
      Option.isSome_iff_exists.mp
        (List.getLast?_isSome.mpr htake_ne)
    have hcount : s.dataPackets.length +
        (msgs.take (castToSizeT s.numDataPackets)).length =
          castToSizeT s.numDataPackets := by
      rw [h0, hlen_take]
      simp
    obtain ⟨out1, hrun1, hpub1⟩ := runRaw_accum ext n
      (msgs.take (castToSizeT s.numDataPackets)) s lastMsg hlast hcount
    set s1 : NodeState :=
      { s with frameId := lastMsg.header.frame_id, dataPackets := [] }
      with hs1
    have hdrop : (msgs.drop (castToSizeT s.numDataPackets)).length =
        m * castToSizeT s1.numDataPackets := by
      rw [List.length_drop, hN, Nat.succ_mul]
      simp
    obtain ⟨sf, pbs, outs, hrun2, hm, hall, hjoin, hempty, hcfg⟩ :=
      ih (msgs.drop (castToSizeT s.numDataPackets)) s1 rfl hk hdrop
    refine ⟨sf, (s.dataPackets ++
        (msgs.take (castToSizeT s.numDataPackets)).map decodeRawPacket) :: pbs,
      out1 ++ outs, ?_, ?_, ?_, ?_, hempty, ?_⟩
    · conv_lhs => rw [← List.take_append_drop (castToSizeT s.numDataPackets) msgs]
      rw [runRaw_append, hrun1]
      simp only []
      rw [hrun2]
      simp
    · simp [hm]
    · intro b hb
      cases hb with
      | head => rw [h0]; simpa using hlen_take
      | tail _ hb' => exact hall b hb'
    · rw [h0]
      simp only [List.nil_append, List.flatten_cons, hjoin]
      rw [← List.map_append, List.take_append_drop]
    · exact sameConfig_trans (by unfold sameConfig; simp) hcfg

/-- C3: for every sequence of `N = m * k` decoded packets (with `k` the
configured count), exactly `m` batches are formed, each of exactly `k` packets
in arrival order; the accumulator is empty immediately after each completed
batch (in particular at the end), and its size stays below `k` after every
decode callback. -/
theorem batch_sizing (ext : Ext) (n : Nat) (s : NodeState)
    (msgs : List DataPacketMsg) (m k : Nat)
    (hk : castToSizeT s.numDataPackets = k) (hk1 : 0 < k)
    (h0 : s.dataPackets = []) (hN : msgs.length = m * k) :
    (∃ sf pbs outs,
      runRaw ext n s msgs = some (sf, pbs, outs) ∧
      pbs.length = m ∧ (∀ b ∈ pbs, b.length = k) ∧
      pbs.flatten = msgs.map decodeRawPacket ∧
      sf.dataPackets = []) ∧
    (∀ i, i ≤ msgs.length → ∃ si pbi outi,
      runRaw ext n s (msgs.take i) = some (si, pbi, outi) ∧
      si.dataPackets.length < k) := by
  subst hk
  constructor
  · obtain ⟨sf, pbs, outs, h1, h2, h3, h4, h5, -⟩ :=
      runRaw_multiple ext n m msgs s h0 hk1 hN
    exact ⟨sf, pbs, outs, h1, h2, h3, h4, h5⟩
  · intro i hi
    obtain ⟨si, pbi, outi, h1, h2, hcfg⟩ := runRaw_below ext n (msgs.take i) s
      (by rw [h0]; simpa using hk1)
    have hnum : castToSizeT si.numDataPackets = castToSizeT s.numDataPackets :=
      by rw [hcfg.1]
    exact ⟨si, pbi, outi, h1, by rwa [hnum] at h2⟩

/-- Witness for C3: four raw messages through capacity-2 `baseState` form
exactly two batches of two packets each, in arrival order, with the
accumulator empty at the end and never reaching 2 between callbacks. -/
theorem batch_sizing_witness :
    (∃ sf pbs outs,
      runRaw extTest 1 baseState
        [msgAt 1 "a", msgAt 2 "a", msgAt 3 "a", msgAt 4 "a"] =
        some (sf, pbs, outs) ∧
      pbs.length = 2 ∧ (∀ b ∈ pbs, b.length = 2) ∧
      pbs.flatten =
        [msgAt 1 "a", msgAt 2 "a", msgAt 3 "a", msgAt 4 "a"].map
          decodeRawPacket ∧
      sf.dataPackets = []) ∧
    (∀ i, i ≤ ([msgAt 1 "a", msgAt 2 "a", msgAt 3 "a", msgAt 4 "a"] :
        List DataPacketMsg).length → ∃ si pbi outi,
      runRaw extTest 1 baseState
        ([msgAt 1 "a", msgAt 2 "a", msgAt 3 "a", msgAt 4 "a"].take i) =
        some (si, pbi, outi) ∧
      si.dataPackets.length < 2) :=
  batch_sizing extTest 1 baseState
    [msgAt 1 "a", msgAt 2 "a", msgAt 3 "a", msgAt 4 "a"] 2 2
    (by decide) (by decide) rfl (by decide)

/-- C2: feeding a full batch with zero observed consumers emits no outbound
message (and skips conversion via the early return), yet still clears the
batch; the next full batch, fed when the consumer count is positive, triggers
exactly one publish whose content — batch, stamp endpoints, converted cloud —
comes only from its own packets, with no residue of the suppressed batch. -/
theorem demand_gating (ext : Ext) (s : NodeState)
    (msgs1 msgs2 : List DataPacketMsg) (m1 m2 : DataPacketMsg) (n : Nat)
    (h0 : s.dataPackets = [])
    (hl1 : msgs1.getLast? = some m1) (hl2 : msgs2.getLast? = some m2)
    (hc1 : msgs1.length = castToSizeT s.numDataPackets)
    (hc2 : msgs2.length = castToSizeT s.numDataPackets)
    (hn : 0 < n) :
    ∃ pf pl : DataPacket,
      runRaw ext 0 s msgs1 =
        some ({ s with frameId := m1.header.frame_id, dataPackets := [] },
          [msgs1.map decodeRawPacket], []) ∧
      (msgs2.map decodeRawPacket).head? = some pf ∧
      (msgs2.map decodeRawPacket).getLast? = some pl ∧
      runRaw ext n { s with frameId := m1.header.frame_id, dataPackets := [] }
          msgs2 =
        some ({ s with frameId := m2.header.frame_id, dataPackets := [] },
          [msgs2.map decodeRawPacket],
          [mkPointCloudMsg ext
            { s with frameId := m2.header.frame_id
                     dataPackets := msgs2.map decodeRawPacket }
            pf.mTimestamp pl.mTimestamp]) := by
  have hcount1 : s.dataPackets.length + msgs1.length =
      castToSizeT s.numDataPackets := by rw [h0]; simpa using hc1
  obtain ⟨out1, hrun1, hpub1⟩ := runRaw_accum ext 0 msgs1 s m1 hl1 hcount1
  have hout1 : out1 = [] := by
    have := publish_zero ext
      { s with frameId := m1.header.frame_id
               dataPackets := s.dataPackets ++ msgs1.map decodeRawPacket }
    rw [this] at hpub1
    exact (Option.some.inj hpub1).symm
  subst hout1
  set s1 : NodeState :=
    { s with frameId := m1.header.frame_id, dataPackets := [] } with hs1
  have hcount2 : s1.dataPackets.length + msgs2.length =
      castToSizeT s1.numDataPackets := by simpa using hc2
  obtain ⟨out2, hrun2, hpub2⟩ := runRaw_accum ext n msgs2 s1 m2 hl2 hcount2
  have hne2 : msgs2.map decodeRawPacket ≠ [] := by
    intro hnil
    rw [List.map_eq_nil_iff] at hnil
    rw [hnil] at hl2
    simp at hl2
  have hpf_ex : ∃ pf, (msgs2.map decodeRawPacket).head? = some pf := by
    cases hd : msgs2.map decodeRawPacket with
    | nil => exact absurd hd hne2
    | cons a l => exact ⟨a, rfl⟩
  obtain ⟨pf, hpf⟩ := hpf_ex
  have hpl_ex : ∃ pl, (msgs2.map decodeRawPacket).getLast? = some pl :=
    Option.isSome_iff_exists.mp (List.getLast?_isSome.mpr hne2)
  obtain ⟨pl, hpl⟩ := hpl_ex
  have hout2 : out2 =
      [mkPointCloudMsg ext
        { s with frameId := m2.header.frame_id
                 dataPackets := msgs2.map decodeRawPacket }
        pf.mTimestamp pl.mTimestamp] := by
    have hpp := publish_pos ext n
      { s with frameId := m2.header.frame_id
               dataPackets := msgs2.map decodeRawPacket }
      pf pl (Nat.pos_iff_ne_zero.mp hn) hpf hpl
    have heq : publish ext n
        { s1 with frameId := m2.header.frame_id
                  dataPackets := s1.dataPackets ++ msgs2.map decodeRawPacket } =
        publish ext n
        { s with frameId := m2.header.frame_id
                 dataPackets := msgs2.map decodeRawPacket } := by
      rw [hs1]
      simp
    rw [heq, hpp] at hpub2
    exact (Option.some.inj hpub2).symm
  refine ⟨pf, pl, ?_, hpf, hpl, ?_⟩
  · rw [hrun1]
    rw [h0]
    simp
  · rw [hrun2, hout2]
    rw [hs1]
    simp

/-- Witness for C2: two capacity-2 batches through `baseState`, the first with
zero subscribers (no output, batch cleared), the second with one subscriber
(exactly one message built from the second batch only). -/
theorem demand_gating_witness :
    ∃ pf pl : DataPacket,
      runRaw extTest 0 baseState [msgAt 1 "a", msgAt 2 "a"] =
        some ({ baseState with
                frameId := (msgAt 2 "a").header.frame_id
                dataPackets := [] },
          [[msgAt 1 "a", msgAt 2 "a"].map decodeRawPacket], []) ∧
      ([msgAt 3 "b", msgAt 4 "b"].map decodeRawPacket).head? = some pf ∧
      ([msgAt 3 "b", msgAt 4 "b"].map decodeRawPacket).getLast? = some pl ∧
      runRaw extTest 1
          { baseState with
            frameId := (msgAt 2 "a").header.frame_id
            dataPackets := [] }
          [msgAt 3 "b", msgAt 4 "b"] =
        some ({ baseState with
                frameId := (msgAt 4 "b").header.frame_id
                dataPackets := [] },
          [[msgAt 3 "b", msgAt 4 "b"].map decodeRawPacket],
          [mkPointCloudMsg extTest
            { baseState with
              frameId := (msgAt 4 "b").header.frame_id
              dataPackets := [msgAt 3 "b", msgAt 4 "b"].map decodeRawPacket }
            pf.mTimestamp pl.mTimestamp]) :=
  demand_gating extTest baseState [msgAt 1 "a", msgAt 2 "a"]
    [msgAt 3 "b", msgAt 4 "b"] (msgAt 2 "a") (msgAt 4 "b") 1 rfl (by decide)
    (by decide) (by decide) (by decide) (by decide)

end Velodyne
